import Mathlib

/-
Verification of the JWKS-based JWT verification engine
(`auth_client/verifier.py`, `auth_client/models.py`, `auth_client/config.py`).

The Python code is shallowly embedded as executable Lean definitions:

* Python `datetime` instants are modelled as `Int` (seconds); `datetime.now()`
  becomes an explicit `now : Int` argument threaded through each operation.
* The JWKS HTTP endpoint is modelled by a `World` containing a stream of fetch
  outcomes: the n-th `_fetch_jwks` call observes `w.fetchAt n`.  A `RunState`
  carries the verifier's mutable cache together with two instrumentation
  counters (number of `_fetch_jwks` calls and of `refresh_jwks` calls); the
  counters are observational only except that the fetch counter indexes the
  outcome stream.
* A JWKS JSON response is modelled by `Jwks`: an optional `keys` array plus a
  count of other top-level entries.  Python truthiness of the cached dict
  (`if self._jwks_cache and ...`) is `Jwks.truthy`: the dict is non-empty iff
  it has a `keys` field or some other entry.
* Python exceptions become an `Except` result with the exception class and
  message preserved in `AuthError`.  `JWKSFetchError` and
  `JWKSVerificationError` are unrelated classes in the source (both extend
  `Exception`); every other error class extends `JWKSVerificationError`.
* The third-party `jose.jwt.decode` is modelled by `jwtDecode` from its
  documented behaviour for the options the verifier passes (signature check,
  required-claim presence for `exp`/`iat`/`sub`, expiry, audience, issuer),
  with jose's error classes and message texts ("Signature verification
  failed.", "Invalid audience", "Invalid issuer").
* Cryptographic signatures are abstracted: a key carries opaque `material`
  and a token's signature is valid for a key iff `tok.sig = key.material`.
-/

set_option autoImplicit false

namespace AuthClient

/-- Substring test, the model of Python's `needle in haystack` on strings. -/
def containsSub (needle hay : String) : Bool :=
  decide (needle.toList <:+: hay.toList)

/-- ASCII lower-casing of one character. -/
def asciiLower (c : Char) : Char :=
  if 65 ≤ c.toNat ∧ c.toNat ≤ 90 then Char.ofNat (c.toNat + 32) else c

/-- Model of Python's `str.lower()` for the ASCII error messages involved. -/
def pyLower (s : String) : String :=
  ⟨s.data.map asciiLower⟩

/-- Rendering of a Python `Optional[str]` inside an f-string: `None` prints
as the text `None`, a string prints verbatim. -/
def pyStr : Option String → String
  | none => "None"
  | some s => s

/-- One public key record of a JWKS response (`kid` may be absent);
`material` abstracts the RSA key fields used by signature verification. -/
structure JwksKey where
  kid : Option String
  material : String
deriving DecidableEq, Repr

/-- A JWKS JSON response object: the optional `keys` array plus the number of
other top-level entries (only emptiness of the dict is ever observed). -/
structure Jwks where
  keys : Option (List JwksKey)
  otherEntries : Nat
deriving DecidableEq, Repr

/-- Python truthiness of the JWKS dict: non-empty iff it has a `keys` entry
or any other entry. -/
def Jwks.truthy (j : Jwks) : Bool :=
  j.keys.isSome || j.otherEntries != 0

/-- Model of `jwks.get("keys", [])`. -/
def Jwks.getKeys (j : Jwks) : List JwksKey :=
  j.keys.getD []

/-- Configuration (`KeycloakConfig` in `config.py`); only the fields the
verifier reads are kept. -/
structure KeycloakConfig where
  server_url : String
  realm : String
  client_id : Option String
  expected_audience : Option String
  jwks_cache_ttl : Int
  verify_audience : Bool
deriving DecidableEq, Repr

/-- Model of the `issuer` property: `f"{server_url}/realms/{realm}"`. -/
def KeycloakConfig.issuer (c : KeycloakConfig) : String :=
  c.server_url ++ "/realms/" ++ c.realm

/-- Model of the `jwks_uri` property. -/
def KeycloakConfig.jwks_uri (c : KeycloakConfig) : String :=
  c.issuer ++ "/protocol/openid-connect/certs"

/-- Model of `get_audience`: `expected_audience` if truthy (a non-empty
string), else `client_id`. -/
def KeycloakConfig.get_audience (c : KeycloakConfig) : Option String :=
  match c.expected_audience with
  | some a => if a ≠ "" then some a else c.client_id
  | none => c.client_id

/-- The exception classes of `verifier.py`, with their messages.
`fetchError` is `JWKSFetchError`; all remaining constructors are
`JWKSVerificationError` or subclasses of it. -/
inductive AuthError where
  | fetchError (msg : String)
  | verificationError (msg : String)
  | tokenExpired (msg : String)
  | invalidToken (msg : String)
  | invalidSignature (msg : String)
  | invalidIssuer (msg : String)
  | invalidAudience (msg : String)
deriving DecidableEq, Repr

/-- Whether the raised exception is an instance of `JWKSVerificationError`
(the class an `except JWKSVerificationError` clause catches). -/
def AuthError.isVerificationError : AuthError → Bool
  | .fetchError _ => false
  | _ => true

/-- The exception's message (`str(e)`). -/
def AuthError.msg : AuthError → String
  | .fetchError m => m
  | .verificationError m => m
  | .tokenExpired m => m
  | .invalidToken m => m
  | .invalidSignature m => m
  | .invalidIssuer m => m
  | .invalidAudience m => m

/-- The verifier's cache fields `_jwks_cache` and `_jwks_cache_expires`. -/
structure CacheState where
  jwks_cache : Option Jwks
  jwks_cache_expires : Option Int
deriving DecidableEq, Repr

/-- Mutable state threaded through a run: the cache plus instrumentation
counters for `_fetch_jwks` and `refresh_jwks` invocations. -/
structure RunState where
  cache : CacheState
  fetchCount : Nat
  refreshCount : Nat
deriving DecidableEq, Repr

/-- The verifier's state right after construction: no cache, no calls. -/
def initState : RunState :=
  { cache := { jwks_cache := none, jwks_cache_expires := none }
    fetchCount := 0
    refreshCount := 0 }

/-- Outcome of one HTTP GET of the JWKS endpoint: a parsed JSON body, an
`httpx.HTTPError` (network failure or non-success status via
`raise_for_status`), or any other failure (e.g. malformed JSON). -/
inductive FetchOutcome where
  | success (j : Jwks)
  | httpError (m : String)
  | otherError (m : String)

/-- The environment of a run: the outcome of the n-th JWKS fetch. -/
structure World where
  fetchAt : Nat → FetchOutcome

/-- Model of `_fetch_jwks`: perform the HTTP GET; on success store the body
and `now + ttl` in the cache and return the body; on failure raise
`JWKSFetchError` with the source's message, leaving the cache untouched. -/
def fetch_jwks (w : World) (now : Int) (cfg : KeycloakConfig) (s : RunState) :
    Except AuthError Jwks × RunState :=
  let outcome := w.fetchAt s.fetchCount
  let s1 := { s with fetchCount := s.fetchCount + 1 }
  match outcome with
  | .success j =>
      (.ok j,
        { s1 with cache :=
            { jwks_cache := some j
              jwks_cache_expires := some (now + cfg.jwks_cache_ttl) } })
  | .httpError m =>
      (.error (.fetchError ("Failed to fetch JWKS from " ++ cfg.jwks_uri ++ ": " ++ m)), s1)
  | .otherError m =>
      (.error (.fetchError ("Unexpected error fetching JWKS: " ++ m)), s1)

/-- Model of `get_jwks`: if the cached dict is truthy, the expiry field is
set and `now` is before it, return the cache; otherwise fetch.  (The
`asyncio.Lock` around the body is represented by the functions being run
one at a time; see `runGetKeysCalls`.) -/
def get_jwks (w : World) (now : Int) (cfg : KeycloakConfig) (s : RunState) :
    Except AuthError Jwks × RunState :=
  match s.cache.jwks_cache, s.cache.jwks_cache_expires with
  | some j, some e =>
      if j.truthy && decide (now < e) then (.ok j, s)
      else fetch_jwks w now cfg s
  | _, _ => fetch_jwks w now cfg s

/-- Model of `refresh_jwks`: unconditionally fetch (the refresh counter is
instrumentation recording the call). -/
def refresh_jwks (w : World) (now : Int) (cfg : KeycloakConfig) (s : RunState) :
    Except AuthError Jwks × RunState :=
  fetch_jwks w now cfg { s with refreshCount := s.refreshCount + 1 }

/-- The `aud` claim as a token may carry it: a single string or a list. -/
inductive AudClaim where
  | str (s : String)
  | list (ss : List String)
deriving DecidableEq, Repr

/-- A top-level `roles` claim: a JSON list of strings or any non-list value
(only `isinstance(..., list)` is ever observed of a non-list). -/
inductive RolesClaim where
  | list (rs : List String)
  | nonList
deriving DecidableEq, Repr

/-- The `realm_access` claim object; `roles` is `none` when the object has
no `roles` entry. -/
structure RealmAccess where
  roles : Option (List String)
deriving DecidableEq, Repr

/-- The claim map of a token's payload; `none` marks an absent claim. -/
structure Claims where
  sub : Option String
  iss : Option String
  exp : Option Int
  iat : Option Int
  aud : Option AudClaim
  jti : Option String
  typ : Option String
  azp : Option String
  scope : Option String
  email : Option String
  email_verified : Option Bool
  preferred_username : Option String
  given_name : Option String
  family_name : Option String
  name : Option String
  realm_access : Option RealmAccess
  roles : Option RolesClaim
  resource_access : Option (List (String × List String))
deriving DecidableEq, Repr

/-- A claim map with every claim absent (for building concrete examples). -/
def Claims.empty : Claims :=
  { sub := none, iss := none, exp := none, iat := none, aud := none
    jti := none, typ := none, azp := none, scope := none, email := none
    email_verified := none, preferred_username := none, given_name := none
    family_name := none, name := none, realm_access := none, roles := none
    resource_access := none }

/-- A JWT's parsed header: optional `alg` and `kid` fields. -/
structure Header where
  alg : Option String
  kid : Option String
deriving DecidableEq, Repr

/-- A bearer token: the raw string (observed only for emptiness; the
`Bearer ` strip in `verify_token` only rewrites this string), the parsed
header (`none` when `jwt.get_unverified_header` raises `JWTError`), the
payload claims and the abstract signature. -/
structure Token where
  raw : String
  header : Option Header
  claims : Claims
  sig : String
deriving DecidableEq, Repr

/-- The dataclass `TokenPayload` of `models.py`; `raw_claims` keeps the
whole claim map. -/
structure TokenPayload where
  sub : String
  iss : String
  exp : Int
  iat : Int
  aud : Option AudClaim
  jti : Option String
  typ : Option String
  azp : Option String
  scope : Option String
  email : Option String
  email_verified : Bool
  preferred_username : Option String
  given_name : Option String
  family_name : Option String
  name : Option String
  roles : List String
  resource_access : List (String × List String)
  raw_claims : Claims
deriving DecidableEq, Repr

/-- Model of `TokenPayload.from_claims`: realm roles come from
`realm_access.roles` when that entry exists, else from a top-level `roles`
list (a non-list `roles` yields `[]`), else `[]`; all other fields are
`claims.get` with the dataclass defaults. -/
def TokenPayload.from_claims (claims : Claims) : TokenPayload :=
  let roles : List String :=
    match claims.realm_access with
    | some ra =>
        match ra.roles with
        | some rs => rs
        | none =>
            match claims.roles with
            | some (.list rs) => rs
            | some .nonList => []
            | none => []
    | none =>
        match claims.roles with
        | some (.list rs) => rs
        | some .nonList => []
        | none => []
  { sub := claims.sub.getD ""
    iss := claims.iss.getD ""
    exp := claims.exp.getD 0
    iat := claims.iat.getD 0
    aud := claims.aud
    jti := claims.jti
    typ := claims.typ
    azp := claims.azp
    scope := claims.scope
    email := claims.email
    email_verified := claims.email_verified.getD false
    preferred_username := claims.preferred_username
    given_name := claims.given_name
    family_name := claims.family_name
    name := claims.name
    roles := roles
    resource_access := claims.resource_access.getD []
    raw_claims := claims }

/-- Model of `TokenPayload.has_role`: `role in self.roles`. -/
def TokenPayload.has_role (p : TokenPayload) (role : String) : Bool :=
  p.roles.contains role

/-- Model of `TokenPayload.has_any_role`. -/
def TokenPayload.has_any_role (p : TokenPayload) (roles : List String) : Bool :=
  roles.any (fun r => p.roles.contains r)

/-- Model of `TokenPayload.has_all_roles`. -/
def TokenPayload.has_all_roles (p : TokenPayload) (roles : List String) : Bool :=
  roles.all (fun r => p.roles.contains r)

/-- The message of the `InvalidTokenError` raised for a non-RS256 `alg`. -/
def unsupportedAlgMsg (alg : String) : String :=
  "Unsupported algorithm: " ++ alg ++ ". Only RS256 is supported."

/-- The message of the `JWKSVerificationError` raised when no key matches. -/
def noMatchingKeyMsg (kid : Option String) : String :=
  "No matching key found in JWKS for kid: " ++ pyStr kid

/-- Model of `_get_signing_key`: parse the header (failure raises
`InvalidTokenError`); read `kid` and `alg` (defaulting `alg` to RS256);
reject any other `alg` as `InvalidTokenError`; then scan `keys` for the
first key whose `kid` equals the token's (Python `==` makes two absent
kids equal); no match raises `JWKSVerificationError`. -/
def get_signing_key (tok : Token) (jwks : Jwks) : Except AuthError JwksKey :=
  match tok.header with
  | none => .error (.invalidToken "Invalid token header")
  | some h =>
      let kid := h.kid
      let alg := h.alg.getD "RS256"
      if alg ≠ "RS256" then
        .error (.invalidToken (unsupportedAlgMsg alg))
      else
        match jwks.getKeys.find? (fun k => k.kid == kid) with
        | some k => .ok k
        | none => .error (.verificationError (noMatchingKeyMsg kid))

/-- The error classes `jose.jwt.decode` can raise, with messages:
`ExpiredSignatureError`, `JWTClaimsError`, other `JWTError`. -/
inductive DecodeError where
  | expiredSignature
  | claimsError (m : String)
  | jwtError (m : String)
deriving DecidableEq, Repr

/-- The options dict `verify_token` passes to `jose.jwt.decode`
(`verify_signature` is always `True` there). -/
structure DecodeOptions where
  verify_signature : Bool
  verify_exp : Bool
  verify_iss : Bool
  verify_aud : Bool
  require_exp : Bool
  require_iat : Bool
  require_sub : Bool
deriving DecidableEq, Repr

/-- Required-claim presence checks of `jose.jwt.decode` for the `require_*`
options the verifier sets, in the options-dict order `exp`, `iat`, `sub`. -/
def checkRequired (c : Claims) (opts : DecodeOptions) : Except DecodeError Unit :=
  if opts.require_exp && c.exp.isNone then
    .error (.jwtError "missing required key exp among claims")
  else if opts.require_iat && c.iat.isNone then
    .error (.jwtError "missing required key iat among claims")
  else if opts.require_sub && c.sub.isNone then
    .error (.jwtError "missing required key sub among claims")
  else .ok ()

/-- jose's expiry validation: with `verify_exp` set and an `exp` claim
present, `exp` strictly before `now` raises `ExpiredSignatureError`. -/
def checkExp (c : Claims) (verify_exp : Bool) (now : Int) : Except DecodeError Unit :=
  if verify_exp then
    match c.exp with
    | some e => if e < now then .error .expiredSignature else .ok ()
    | none => .ok ()
  else .ok ()

/-- jose's audience validation: with `verify_aud` set and an `aud` claim
present, the expected audience must be among the claim's values (an absent
expected audience then never matches). -/
def checkAud (c : Claims) (verify_aud : Bool) (audience : Option String) :
    Except DecodeError Unit :=
  if verify_aud then
    match c.aud with
    | none => .ok ()
    | some (.str s) =>
        match audience with
        | some a => if a == s then .ok () else .error (.claimsError "Invalid audience")
        | none => .error (.claimsError "Invalid audience")
    | some (.list ss) =>
        match audience with
        | some a => if ss.contains a then .ok () else .error (.claimsError "Invalid audience")
        | none => .error (.claimsError "Invalid audience")
  else .ok ()

/-- jose's issuer validation: with `verify_iss` set and an expected issuer
supplied, the `iss` claim must equal it. -/
def checkIss (c : Claims) (verify_iss : Bool) (issuer : Option String) :
    Except DecodeError Unit :=
  if verify_iss then
    match issuer with
    | none => .ok ()
    | some i =>
        if c.iss == some i then .ok () else .error (.claimsError "Invalid issuer")
  else .ok ()

/-- Model of the third-party `jose.jwt.decode` for the arguments
`verify_token` passes: signature verification first (jose wraps the
`JWSError` text "Signature verification failed." in a `JWTError`), then
required-claim presence, then the expiry, audience and issuer checks in
jose's order; on success the decoded claim map is returned. -/
def jwtDecode (tok : Token) (key : JwksKey) (audience : Option String)
    (issuer : Option String) (opts : DecodeOptions) (now : Int) :
    Except DecodeError Claims :=
  if opts.verify_signature && tok.sig != key.material then
    .error (.jwtError "Signature verification failed.")
  else
    match checkRequired tok.claims opts with
    | .error e => .error e
    | .ok _ =>
        match checkExp tok.claims opts.verify_exp now with
        | .error e => .error e
        | .ok _ =>
            match checkAud tok.claims opts.verify_aud audience with
            | .error e => .error e
            | .ok _ =>
                match checkIss tok.claims opts.verify_iss issuer with
                | .error e => .error e
                | .ok _ => .ok tok.claims

/-- Model of `verify_token`: empty input is rejected; the `Bearer ` strip
only rewrites the raw string; the key set is obtained via `get_jwks` (its
errors are not caught here), the signing key via `_get_signing_key`
(likewise uncaught), and `jose.jwt.decode` runs with the option dict built
from the arguments; decode failures are mapped to the source's exception
classes by the catch clauses (substring tests on lowercased messages). -/
def verify_token (w : World) (now : Int) (cfg : KeycloakConfig) (tok : Token)
    (verify_exp : Bool) (verify_iss : Bool) (verify_aud : Option Bool)
    (s : RunState) : Except AuthError TokenPayload × RunState :=
  if tok.raw == "" then (.error (.invalidToken "Token is empty"), s)
  else
    match get_jwks w now cfg s with
    | (.error e, s1) => (.error e, s1)
    | (.ok jwks, s1) =>
        match get_signing_key tok jwks with
        | .error e => (.error e, s1)
        | .ok key =>
            let va := verify_aud.getD cfg.verify_audience
            let opts : DecodeOptions :=
              { verify_signature := true
                verify_exp := verify_exp
                verify_iss := verify_iss
                verify_aud := va
                require_exp := true
                require_iat := true
                require_sub := true }
            let audience := if va then cfg.get_audience else none
            match jwtDecode tok key audience
                (if verify_iss then some cfg.issuer else none) opts now with
            | .ok claims => (.ok (TokenPayload.from_claims claims), s1)
            | .error .expiredSignature =>
                (.error (.tokenExpired "Token has expired"), s1)
            | .error (.claimsError m) =>
                if containsSub "issuer" (pyLower m) then
                  (.error (.invalidIssuer ("Invalid issuer: " ++ m)), s1)
                else if containsSub "audience" (pyLower m) then
                  (.error (.invalidAudience ("Invalid audience: " ++ m)), s1)
                else
                  (.error (.verificationError ("Claims validation failed: " ++ m)), s1)
            | .error (.jwtError m) =>
                if containsSub "signature" (pyLower m) then
                  (.error (.invalidSignature ("Invalid signature: " ++ m)), s1)
                else
                  (.error (.invalidToken ("Token verification failed: " ++ m)), s1)

/-- Model of `verify_token_with_retry`: run `verify_token`; if it raises a
`JWKSVerificationError` whose message contains "No matching key found",
call `refresh_jwks` (whose own failure propagates) and run `verify_token`
once more; any other error propagates unchanged. -/
def verify_token_with_retry (w : World) (now : Int) (cfg : KeycloakConfig)
    (tok : Token) (verify_exp : Bool) (verify_iss : Bool)
    (verify_aud : Option Bool) (s : RunState) :
    Except AuthError TokenPayload × RunState :=
  match verify_token w now cfg tok verify_exp verify_iss verify_aud s with
  | (.ok p, s1) => (.ok p, s1)
  | (.error e, s1) =>
      if e.isVerificationError && containsSub "No matching key found" e.msg then
        match refresh_jwks w now cfg s1 with
        | (.error e2, s2) => (.error e2, s2)
        | (.ok _, s2) => verify_token w now cfg tok verify_exp verify_iss verify_aud s2
      else (.error e, s1)

/-- Sequential iteration of `get_jwks` calls: the `asyncio.Lock` spans the
whole body of `get_jwks`, so any set of concurrent callers executes as some
sequence of complete calls; all callers being identical, that sequence is
this iteration. -/
def runGetKeysCalls (w : World) (now : Int) (cfg : KeycloakConfig) :
    Nat → RunState → List (Except AuthError Jwks) × RunState
  | 0, s => ([], s)
  | n + 1, s =>
      let (r, s1) := get_jwks w now cfg s
      let (rs, s2) := runGetKeysCalls w now cfg n s1
      (r :: rs, s2)

/-! Concrete fixtures used by witnesses and counterexamples. -/

/-- A configuration with the default TTL of 3600 seconds. -/
def cfgEx : KeycloakConfig :=
  { server_url := "https://idp", realm := "r", client_id := some "app"
    expected_audience := none, jwks_cache_ttl := 3600, verify_audience := false }

/-- A key with kid `A`. -/
def keyA : JwksKey := { kid := some "A", material := "matA" }

/-- A well-formed JWKS response holding only `keyA`. -/
def jwksA : Jwks := { keys := some [keyA], otherEntries := 0 }

/-- The empty JSON object `\x7b\x7d` as a JWKS response: no `keys` field, no
other entries; as a Python dict it is falsy. -/
def emptyJwks : Jwks := { keys := none, otherEntries := 0 }

/-- An endpoint that always answers with `jwksA`. -/
def worldA : World := ⟨fun _ => .success jwksA⟩

/-- An endpoint that always answers with the empty JSON object. -/
def worldEmpty : World := ⟨fun _ => .success emptyJwks⟩

/-- An endpoint that always fails with a network error. -/
def worldFail : World := ⟨fun _ => .httpError "connection refused"⟩

/-- The claim map of the round-trip scenario, issued at `T`. -/
def exampleClaims (T : Int) : Claims :=
  { Claims.empty with
      sub := some "u1"
      iss := some "https://idp/realms/r"
      exp := some (T + 60)
      iat := some T
      realm_access := some { roles := some ["admin", "viewer"] } }

/-- A token correctly signed by `keyA` with the round-trip claims. -/
def tokValid : Token :=
  { raw := "t", header := some { alg := some "RS256", kid := some "A" }
    claims := exampleClaims 1000, sig := "matA" }

/-- A token signed by `keyA` whose `exp` (5) is already past at `now = 10`. -/
def tokExpired : Token :=
  { raw := "t", header := some { alg := some "RS256", kid := some "A" }
    claims := { Claims.empty with
                  sub := some "u1", iss := some "https://idp/realms/r"
                  exp := some 5, iat := some 0 }
    sig := "matA" }

/-- A token like `tokValid` but with a signature no key validates. -/
def tokBadSig : Token :=
  { raw := "t", header := some { alg := some "RS256", kid := some "A" }
    claims := exampleClaims 1000, sig := "forged" }

/-- A token declaring the symmetric algorithm HS256. -/
def tokHS256 : Token :=
  { raw := "t", header := some { alg := some "HS256", kid := some "A" }
    claims := exampleClaims 1000, sig := "matA" }

/-- A token whose header has no `alg` field. -/
def tokNoAlg : Token :=
  { raw := "t", header := some { alg := none, kid := some "A" }
    claims := exampleClaims 1000, sig := "matA" }

/-- A token whose kid `Z` matches no key in any fixture key set. -/
def tokKidZ : Token :=
  { raw := "t", header := some { alg := some "RS256", kid := some "Z" }
    claims := exampleClaims 1000, sig := "matA" }

/-- A verifier state holding a valid, unexpired, non-empty cached key set. -/
def warmState : RunState :=
  { cache := { jwks_cache := some jwksA, jwks_cache_expires := some 1000 }
    fetchCount := 0, refreshCount := 0 }

/-- A verifier state caching the empty JSON object with an unexpired expiry. -/
def staleEmptyState : RunState :=
  { cache := { jwks_cache := some emptyJwks, jwks_cache_expires := some 100 }
    fetchCount := 0, refreshCount := 0 }

/-! Helper lemmas. -/

theorem containsSub_append_right (n pre x : String) (h : containsSub n pre = true) :
    containsSub n (pre ++ x) = true := by
  simp only [containsSub, decide_eq_true_eq] at h ⊢
  have hconv : (pre ++ x).toList = pre.toList ++ x.toList := String.data_append pre x
  rw [hconv]
  exact h.trans (List.prefix_append pre.toList x.toList).isInfix

theorem containsSub_noMatchingKeyMsg (kid : Option String) :
    containsSub "No matching key found" (noMatchingKeyMsg kid) = true :=
  containsSub_append_right _ _ _ (by decide)

theorem fetch_jwks_refreshCount (w : World) (now : Int) (cfg : KeycloakConfig)
    (s : RunState) : (fetch_jwks w now cfg s).2.refreshCount = s.refreshCount := by
  unfold fetch_jwks
  cases w.fetchAt s.fetchCount <;> rfl

theorem get_jwks_refreshCount (w : World) (now : Int) (cfg : KeycloakConfig)
    (s : RunState) : (get_jwks w now cfg s).2.refreshCount = s.refreshCount := by
  unfold get_jwks
  split
  · split
    · rfl
    · exact fetch_jwks_refreshCount w now cfg s
  · exact fetch_jwks_refreshCount w now cfg s

theorem fetch_jwks_error_shape (w : World) (now : Int) (cfg : KeycloakConfig)
    (s : RunState) (e : AuthError) (s1 : RunState)
    (h : fetch_jwks w now cfg s = (.error e, s1)) : ∃ m, e = .fetchError m := by
  unfold fetch_jwks at h
  rcases hf : w.fetchAt s.fetchCount with j | m | m <;> rw [hf] at h <;>
    simp_all
  · exact ⟨_, h.1.symm⟩
  · exact ⟨_, h.1.symm⟩

theorem get_jwks_error_shape (w : World) (now : Int) (cfg : KeycloakConfig)
    (s : RunState) (e : AuthError) (s1 : RunState)
    (h : get_jwks w now cfg s = (.error e, s1)) : ∃ m, e = .fetchError m := by
  unfold get_jwks at h
  split at h
  · split at h
    · simp at h
    · exact fetch_jwks_error_shape w now cfg s e s1 h
  · exact fetch_jwks_error_shape w now cfg s e s1 h

/-! Claim theorems. -/

/-- C4: for every token whose header declares an algorithm other than RS256
(including `none` and symmetric algorithms), key resolution rejects it as
the malformed-token error `InvalidTokenError` before any key lookup is
attempted: the result is the unsupported-algorithm error and is the same for
every key set, so no key lookup can have been consulted. -/
theorem C4_non_rs256_algorithm_rejected (tok : Token) (h : Header) (a : String)
    (jwks jwks' : Jwks) (hh : tok.header = some h) (ha : h.alg = some a)
    (hne : a ≠ "RS256") :
    get_signing_key tok jwks = .error (.invalidToken (unsupportedAlgMsg a)) ∧
    get_signing_key tok jwks = get_signing_key tok jwks' := by
  refine ⟨?_, ?_⟩ <;> simp [get_signing_key, hh, ha, hne]

/-- C4 witness: a token declaring HS256 is rejected as `InvalidTokenError`,
and the result is the same for a populated and for an empty key set. -/
theorem C4_witness :
    get_signing_key tokHS256 jwksA = .error (.invalidToken (unsupportedAlgMsg "HS256")) ∧
    get_signing_key tokHS256 jwksA = get_signing_key tokHS256 emptyJwks :=
  C4_non_rs256_algorithm_rejected tokHS256
    { alg := some "HS256", kid := some "A" } "HS256" jwksA emptyJwks rfl rfl
    (by decide)

/-- C9: a header with no `alg` field is treated as RS256 (`.get("alg",
"RS256")`) and key resolution proceeds to the key lookup exactly as for a
declared RS256; the unsupported-algorithm rejection occurs iff the header's
`alg` field is present and differs from RS256. -/
theorem C9_missing_alg_defaults_to_rs256 (tok : Token) (h : Header) (jwks : Jwks)
    (hh : tok.header = some h) :
    (h.alg = none →
      get_signing_key tok jwks =
        get_signing_key { tok with header := some { alg := some "RS256", kid := h.kid } } jwks) ∧
    ((∃ a, get_signing_key tok jwks = .error (.invalidToken (unsupportedAlgMsg a))) ↔
      ∃ a, h.alg = some a ∧ a ≠ "RS256") := by
  constructor
  · intro ha
    simp [get_signing_key, hh, ha]
  · constructor
    · rintro ⟨a, hres⟩
      rcases halg : h.alg with _ | b
      · exfalso
        simp only [get_signing_key, hh, halg] at hres
        rcases hf : jwks.getKeys.find? (fun k => k.kid == h.kid) with _ | k <;>
          simp [hf] at hres
      · by_cases hb : b = "RS256"
        · exfalso
          subst hb
          simp only [get_signing_key, hh, halg] at hres
          rcases hf : jwks.getKeys.find? (fun k => k.kid == h.kid) with _ | k <;>
            simp [hf] at hres
        · exact ⟨b, rfl, hb⟩
    · rintro ⟨a, halg, hne⟩
      exact ⟨a, by simp [get_signing_key, hh, halg, hne]⟩

/-- C9 witness: a token with no `alg` resolves exactly as the same token
with a declared RS256. -/
theorem C9_witness :
    get_signing_key tokNoAlg jwksA =
      get_signing_key { tokNoAlg with header := some { alg := some "RS256", kid := some "A" } } jwksA := by
  have hw := C9_missing_alg_defaults_to_rs256 tokNoAlg
    { alg := none, kid := some "A" } jwksA rfl
  exact hw.1 rfl

/-- C6: when the n-th fetch fails — as a network error or non-success
status (`httpx.HTTPError`) or as any other failure such as malformed JSON —
`_fetch_jwks` raises `JWKSFetchError` with the source's message and the
resulting state is the old state with only the fetch counter advanced: the
cached key set and its expiry instant are exactly as before, and no key set
is returned. -/
theorem C6_failed_fetch_preserves_cache (w : World) (now : Int)
    (cfg : KeycloakConfig) (s : RunState) (m : String) :
    (w.fetchAt s.fetchCount = .httpError m →
      fetch_jwks w now cfg s =
        (.error (.fetchError ("Failed to fetch JWKS from " ++ cfg.jwks_uri ++ ": " ++ m)),
         { s with fetchCount := s.fetchCount + 1 })) ∧
    (w.fetchAt s.fetchCount = .otherError m →
      fetch_jwks w now cfg s =
        (.error (.fetchError ("Unexpected error fetching JWKS: " ++ m)),
         { s with fetchCount := s.fetchCount + 1 })) := by
  constructor <;> intro hf <;> simp [fetch_jwks, hf]

/-- C6 witness: a network failure on the first fetch from a fresh verifier
raises `JWKSFetchError` and leaves the (empty) cache untouched. -/
theorem C6_witness :
    fetch_jwks worldFail 0 cfgEx initState =
      (.error (.fetchError ("Failed to fetch JWKS from " ++ cfgEx.jwks_uri ++ ": connection refused")),
       { initState with fetchCount := 1 }) :=
  (C6_failed_fetch_preserves_cache worldFail 0 cfgEx initState "connection refused").1 rfl

/-- C8: `TokenPayload.from_claims` extracts realm roles with the fixed
precedence `realm_access.roles` if that entry exists, else a top-level
`roles` list, else `[]`; and the round-trip example built from
`sub = u1, iss = https://idp/realms/r, exp = T+60, iat = T,
realm_access.roles = [admin, viewer]` has roles `[admin, viewer]`,
`has_role admin`, and not `has_all_roles [admin, editor]`. -/
theorem C8_roles_precedence (claims : Claims) (T : Int) :
    (∀ ra rs, claims.realm_access = some ra → ra.roles = some rs →
      (TokenPayload.from_claims claims).roles = rs) ∧
    (claims.realm_access.bind RealmAccess.roles = none →
      ∀ rs, claims.roles = some (.list rs) →
        (TokenPayload.from_claims claims).roles = rs) ∧
    (claims.realm_access.bind RealmAccess.roles = none →
      (∀ rs, claims.roles ≠ some (.list rs)) →
      (TokenPayload.from_claims claims).roles = []) ∧
    ((TokenPayload.from_claims (exampleClaims T)).roles = ["admin", "viewer"] ∧
     (TokenPayload.from_claims (exampleClaims T)).has_role "admin" = true ∧
     (TokenPayload.from_claims (exampleClaims T)).has_all_roles ["admin", "editor"] = false) := by
  refine ⟨?_, ?_, ?_, ?_, ?_, ?_⟩
  · intro ra rs hra hrs
    simp [TokenPayload.from_claims, hra, hrs]
  · intro hnet rs hrs
    rcases hra : claims.realm_access with _ | ra
    · simp [TokenPayload.from_claims, hra, hrs]
    · have hnone : ra.roles = none := by
        rw [hra] at hnet
        simpa using hnet
      simp [TokenPayload.from_claims, hra, hnone, hrs]
  · intro hnet hne
    have hroles : ∀ ra : Option RealmAccess, claims.realm_access = ra →
        (ra.elim True (fun r => r.roles = none)) →
        (TokenPayload.from_claims claims).roles = [] := by
      intro ra hra hcond
      rcases hr : claims.roles with _ | rc
      · rcases ra with _ | ra'
        · simp [TokenPayload.from_claims, hra, hr]
        · simp only [Option.elim] at hcond
          simp [TokenPayload.from_claims, hra, hcond, hr]
      · rcases rc with rs | _
        · exact absurd hr (hne rs)
        · rcases ra with _ | ra'
          · simp [TokenPayload.from_claims, hra, hr]
          · simp only [Option.elim] at hcond
            simp [TokenPayload.from_claims, hra, hcond, hr]
    rcases hra : claims.realm_access with _ | ra
    · exact hroles none hra trivial
    · have hnone : ra.roles = none := by
        rw [hra] at hnet
        simpa using hnet
      exact hroles (some ra) hra hnone
  · simp [TokenPayload.from_claims, exampleClaims, Claims.empty]
  · simp [TokenPayload.has_role, TokenPayload.from_claims, exampleClaims, Claims.empty]
  · simp [TokenPayload.has_all_roles, TokenPayload.from_claims, exampleClaims, Claims.empty]

/-- C8 witness: the round-trip example at `T = 1000`, with the first
precedence clause discharged at its concrete realm-access entry. -/
theorem C8_witness :
    (TokenPayload.from_claims (exampleClaims 1000)).roles = ["admin", "viewer"] ∧
    (TokenPayload.from_claims (exampleClaims 1000)).has_role "admin" = true ∧
    (TokenPayload.from_claims (exampleClaims 1000)).has_all_roles ["admin", "editor"] = false := by
  have hw := C8_roles_precedence (exampleClaims 1000) 1000
  exact ⟨hw.1 { roles := some ["admin", "viewer"] } ["admin", "viewer"] rfl rfl,
    hw.2.2.2.2.1, hw.2.2.2.2.2⟩

/-- C5 counterexample: the claim "get_keys returns the cached KeySet
without a network fetch when a cached KeySet exists and the current time is
before its expiry instant" fails when the cached key set is the empty JSON
object: with `emptyJwks` cached and unexpired (now `0`, expiry `100`),
`get_jwks` performs a fetch (counter 1, not 0) and returns the freshly
fetched key set instead of the cached one, because the Python truthiness
test `if self._jwks_cache and ...` treats the empty dict as no cache. -/
theorem C5_counterexample :
    staleEmptyState.cache.jwks_cache = some emptyJwks ∧
    staleEmptyState.cache.jwks_cache_expires = some 100 ∧
    ((0 : Int) < 100) ∧
    (get_jwks worldA 0 cfgEx staleEmptyState).2.fetchCount = 1 ∧
    (get_jwks worldA 0 cfgEx staleEmptyState).1 = .ok jwksA ∧
    jwksA ≠ emptyJwks :=
  ⟨rfl, rfl, by decide, rfl, rfl, by decide⟩

/-- C5 amended: `get_jwks` returns the cached key set without a fetch when
a cached non-empty (truthy) key set exists, its expiry field is set, and
the current time is strictly before the expiry; otherwise (no cache yet,
empty cached object, or expiry reached) it delegates to a single
`_fetch_jwks` call, advancing the fetch counter by exactly one. -/
theorem C5_amended_cache_policy (w : World) (now : Int) (cfg : KeycloakConfig)
    (s : RunState) :
    (∀ j e, s.cache.jwks_cache = some j → s.cache.jwks_cache_expires = some e →
      j.truthy = true → now < e → get_jwks w now cfg s = (.ok j, s)) ∧
    (¬(∃ j e, s.cache.jwks_cache = some j ∧ s.cache.jwks_cache_expires = some e ∧
        j.truthy = true ∧ now < e) →
      get_jwks w now cfg s = fetch_jwks w now cfg s ∧
      (get_jwks w now cfg s).2.fetchCount = s.fetchCount + 1) := by
  constructor
  · intro j e hj he ht hlt
    simp [get_jwks, hj, he, ht, hlt]
  · intro hmiss
    have hfc : (fetch_jwks w now cfg s).2.fetchCount = s.fetchCount + 1 := by
      unfold fetch_jwks
      cases w.fetchAt s.fetchCount <;> rfl
    have heq : get_jwks w now cfg s = fetch_jwks w now cfg s := by
      unfold get_jwks
      rcases hj : s.cache.jwks_cache with _ | j
      · rfl
      · rcases he : s.cache.jwks_cache_expires with _ | e
        · rfl
        · have hcond : (j.truthy && decide (now < e)) = false := by
            by_contra hc
            rw [Bool.not_eq_false, Bool.and_eq_true, decide_eq_true_eq] at hc
            exact hmiss ⟨j, e, hj, he, hc.1, hc.2⟩
          simp [hcond]
    exact ⟨heq, heq ▸ hfc⟩

/-- C5 witness: with TTL 3600 and a key set fetched at time 0, `get_jwks`
at `T+3599` returns the cached key set with no state change, and at
`T+3601` it performs exactly one fetch. -/
theorem C5_witness :
    get_jwks worldA 3599 cfgEx (fetch_jwks worldA 0 cfgEx initState).2 =
      (.ok jwksA, (fetch_jwks worldA 0 cfgEx initState).2) ∧
    (get_jwks worldA 3601 cfgEx (fetch_jwks worldA 0 cfgEx initState).2).2.fetchCount =
      (fetch_jwks worldA 0 cfgEx initState).2.fetchCount + 1 := by
  constructor
  · exact (C5_amended_cache_policy worldA 3599 cfgEx
      (fetch_jwks worldA 0 cfgEx initState).2).1 jwksA 3600 rfl rfl rfl (by decide)
  · refine ((C5_amended_cache_policy worldA 3601 cfgEx
      (fetch_jwks worldA 0 cfgEx initState).2).2 ?_).2
    rintro ⟨j, e, hj, he, -, hlt⟩
    have hj' : j = jwksA := by
      have : some jwksA = some j := hj
      exact (Option.some.inj this).symm
    have he' : e = 3600 := by
      have : some (3600 : Int) = some e := he
      exact (Option.some.inj this).symm
    rw [he'] at hlt
    omega

/-- C10 counterexample: the claim "concurrent get_keys calls when no KeySet
is cached yet result in exactly one network fetch" fails when the provider
answers with the empty JSON object: two serialized callers starting from
the fresh state both fetch (counter 2, not 1), because the cached empty
dict is falsy and is treated as no cache on the second call. -/
theorem C10_counterexample :
    initState.cache.jwks_cache = none ∧
    runGetKeysCalls worldEmpty 0 cfgEx 2 initState =
      ([.ok emptyJwks, .ok emptyJwks],
       { cache := { jwks_cache := some emptyJwks, jwks_cache_expires := some 3600 }
         fetchCount := 2, refreshCount := 0 }) :=
  ⟨rfl, rfl⟩

theorem runGetKeysCalls_cached (w : World) (now : Int) (cfg : KeycloakConfig)
    (j : Jwks) (e : Int) (ht : j.truthy = true) (hlt : now < e) :
    ∀ n (s : RunState), s.cache.jwks_cache = some j →
      s.cache.jwks_cache_expires = some e →
      runGetKeysCalls w now cfg n s = (List.replicate n (.ok j), s) := by
  intro n
  induction n with
  | zero => intro s _ _; rfl
  | succ m ih =>
      intro s hj he
      have hone : get_jwks w now cfg s = (.ok j, s) := by
        simp [get_jwks, hj, he, ht, hlt]
      simp [runGetKeysCalls, hone, ih s hj he, List.replicate_succ]

/-- C10 amended: for any number of callers executing `get_jwks` under the
cache lock starting from the fresh state, if the first fetch succeeds with
a non-empty (truthy) key set and the TTL is positive, exactly one fetch is
performed and every caller receives the same key set value. -/
theorem C10_amended_single_fetch (w : World) (now : Int) (cfg : KeycloakConfig)
    (n : Nat) (j : Jwks) (hf : w.fetchAt 0 = .success j) (ht : j.truthy = true)
    (httl : 0 < cfg.jwks_cache_ttl) :
    runGetKeysCalls w now cfg (n + 1) initState =
      (List.replicate (n + 1) (.ok j),
       { cache := { jwks_cache := some j
                    jwks_cache_expires := some (now + cfg.jwks_cache_ttl) }
         fetchCount := 1, refreshCount := 0 }) := by
  have hfirst : get_jwks w now cfg initState =
      (.ok j,
       { cache := { jwks_cache := some j
                    jwks_cache_expires := some (now + cfg.jwks_cache_ttl) }
         fetchCount := 1, refreshCount := 0 }) := by
    simp [get_jwks, initState, fetch_jwks, hf]
  have hrest := runGetKeysCalls_cached w now cfg j (now + cfg.jwks_cache_ttl)
    ht (by omega) n
    { cache := { jwks_cache := some j
                 jwks_cache_expires := some (now + cfg.jwks_cache_ttl) }
      fetchCount := 1, refreshCount := 0 } rfl rfl
  simp [runGetKeysCalls, hfirst, hrest, List.replicate_succ]

/-- C10 witness: two callers from the fresh state against a well-formed
endpoint perform exactly one fetch and both receive `jwksA`. -/
theorem C10_witness :
    runGetKeysCalls worldA 0 cfgEx 2 initState =
      ([.ok jwksA, .ok jwksA],
       { cache := { jwks_cache := some jwksA, jwks_cache_expires := some 3600 }
         fetchCount := 1, refreshCount := 0 }) := by
  have hw := C10_amended_single_fetch worldA 0 cfgEx 1 jwksA rfl rfl (by decide)
  simpa using hw

/-- C1 counterexample: the claim that a key-set fetch failure is surfaced
"wrapped as a verification-failure error (a subtype of the single
verification-error surface)" fails: with the endpoint down, `verify_token`
raises the `JWKSFetchError` itself, and `JWKSFetchError` is not a
`JWKSVerificationError` (the `get_jwks` call sits outside the try block and
the two exception classes are unrelated). -/
theorem C1_counterexample :
    (verify_token worldFail 0 cfgEx tokValid true true none initState).1 =
      .error (.fetchError ("Failed to fetch JWKS from " ++ cfgEx.jwks_uri ++ ": connection refused")) ∧
    AuthError.isVerificationError
      (.fetchError ("Failed to fetch JWKS from " ++ cfgEx.jwks_uri ++ ": connection refused")) = false :=
  ⟨rfl, rfl⟩

/-- C1 amended: every lower-layer error passes through `verify_token`
unchanged, including the key-set fetch failure, which is raised as the
fetch-error kind itself — not a subtype of the verification-error surface —
and likewise any key-resolution error. -/
theorem C1_amended_errors_pass_through (w : World) (now : Int)
    (cfg : KeycloakConfig) (tok : Token) (ve vi : Bool) (va : Option Bool)
    (s : RunState) :
    (tok.raw ≠ "" → ∀ e s1, get_jwks w now cfg s = (.error e, s1) →
      verify_token w now cfg tok ve vi va s = (.error e, s1) ∧
      e.isVerificationError = false) ∧
    (tok.raw ≠ "" → ∀ jwks s1 e2, get_jwks w now cfg s = (.ok jwks, s1) →
      get_signing_key tok jwks = .error e2 →
      verify_token w now cfg tok ve vi va s = (.error e2, s1)) := by
  constructor
  · intro hraw e s1 hgj
    have hbe : (tok.raw == "") = false := beq_eq_false_iff_ne.mpr hraw
    constructor
    · simp [verify_token, hbe, hgj]
    · obtain ⟨m, hm⟩ := get_jwks_error_shape w now cfg s e s1 hgj
      rw [hm]
      rfl
  · intro hraw jwks s1 e2 hgj hsk
    have hbe : (tok.raw == "") = false := beq_eq_false_iff_ne.mpr hraw
    simp [verify_token, hbe, hgj, hsk]

/-- C1 amended witness: with a warm cache and a failing endpoint, a key
lookup miss passes through unchanged; and from a fresh state a fetch
failure passes through as a non-verification error. -/
theorem C1_witness :
    (verify_token worldFail 0 cfgEx tokValid true true none initState =
      (.error (.fetchError ("Failed to fetch JWKS from " ++ cfgEx.jwks_uri ++ ": connection refused")),
       { initState with fetchCount := 1 }) ∧
     AuthError.isVerificationError
       (.fetchError ("Failed to fetch JWKS from " ++ cfgEx.jwks_uri ++ ": connection refused")) = false) ∧
    verify_token worldFail 0 cfgEx tokKidZ true true none warmState =
      (.error (.verificationError (noMatchingKeyMsg (some "Z"))), warmState) := by
  have hw := C1_amended_errors_pass_through worldFail 0 cfgEx tokValid true true none initState
  have hw2 := C1_amended_errors_pass_through worldFail 0 cfgEx tokKidZ true true none warmState
  exact ⟨hw.1 (by decide) _ _ rfl, hw2.2 (by decide) jwksA warmState _ rfl rfl⟩

/-- C7: with expiry checking enabled (the default), a token whose `exp` is
in the past fails with `TokenExpiredError` even though its signature is
valid for the resolved key; with expiry checking explicitly disabled the
same token verifies successfully (other checks passing: required claims
present, issuer matching, audience checking off). -/
theorem C7_expired_token (w : World) (now : Int) (cfg : KeycloakConfig)
    (tok : Token) (h : Header) (jwks : Jwks) (s s1 : RunState) (k : JwksKey)
    (e : Int)
    (hraw : tok.raw ≠ "")
    (hh : tok.header = some h)
    (halg : h.alg.getD "RS256" = "RS256")
    (hgj : get_jwks w now cfg s = (.ok jwks, s1))
    (hfind : jwks.getKeys.find? (fun kk => kk.kid == h.kid) = some k)
    (hsig : tok.sig = k.material)
    (hexp : tok.claims.exp = some e)
    (hlt : e < now)
    (hiat : tok.claims.iat.isNone = false)
    (hsub : tok.claims.sub.isNone = false)
    (hiss : tok.claims.iss = some cfg.issuer) :
    verify_token w now cfg tok true true (some false) s =
      (.error (.tokenExpired "Token has expired"), s1) ∧
    verify_token w now cfg tok false true (some false) s =
      (.ok (TokenPayload.from_claims tok.claims), s1) := by
  have hbe : (tok.raw == "") = false := beq_eq_false_iff_ne.mpr hraw
  have hsk : get_signing_key tok jwks = .ok k := by
    simp [get_signing_key, hh, halg, hfind]
  constructor
  · simp [verify_token, hbe, hgj, hsk, jwtDecode, hsig, checkRequired, checkExp,
      hexp, hlt, hiat, hsub]
  · simp [verify_token, hbe, hgj, hsk, jwtDecode, hsig, checkRequired, checkExp,
      checkAud, checkIss, hexp, hiat, hsub, hiss]

/-- C7 witness: `tokExpired` (exp 5, validly signed by `keyA`) at time 10
fails with `TokenExpiredError` under the default options and succeeds with
expiry checking disabled. -/
theorem C7_witness :
    verify_token worldA 10 cfgEx tokExpired true true (some false) initState =
      (.error (.tokenExpired "Token has expired"),
       { cache := { jwks_cache := some jwksA, jwks_cache_expires := some 3610 }
         fetchCount := 1, refreshCount := 0 }) ∧
    verify_token worldA 10 cfgEx tokExpired false true (some false) initState =
      (.ok (TokenPayload.from_claims tokExpired.claims),
       { cache := { jwks_cache := some jwksA, jwks_cache_expires := some 3610 }
         fetchCount := 1, refreshCount := 0 }) := by
  exact C7_expired_token worldA 10 cfgEx tokExpired
    { alg := some "RS256", kid := some "A" } jwksA initState
    { cache := { jwks_cache := some jwksA, jwks_cache_expires := some 3610 }
      fetchCount := 1, refreshCount := 0 }
    keyA 5 (by decide) rfl rfl rfl rfl rfl rfl (by decide) rfl rfl (by decide)

/-- C3: a token whose signature verification fails raises
`InvalidSignatureError` from `verify_token`, and `verify_token_with_retry`
re-raises it without any refresh and without a second verification attempt:
its result and final state are exactly those of the single `verify_token`
call, and the refresh counter never moves. -/
theorem C3_invalid_signature_never_retried (w : World) (now : Int)
    (cfg : KeycloakConfig) (tok : Token) (h : Header) (jwks : Jwks)
    (s s1 : RunState) (k : JwksKey) (ve vi : Bool) (va : Option Bool)
    (hraw : tok.raw ≠ "")
    (hh : tok.header = some h)
    (halg : h.alg.getD "RS256" = "RS256")
    (hgj : get_jwks w now cfg s = (.ok jwks, s1))
    (hfind : jwks.getKeys.find? (fun kk => kk.kid == h.kid) = some k)
    (hsig : tok.sig ≠ k.material) :
    verify_token w now cfg tok ve vi va s =
      (.error (.invalidSignature "Invalid signature: Signature verification failed."), s1) ∧
    verify_token_with_retry w now cfg tok ve vi va s =
      (.error (.invalidSignature "Invalid signature: Signature verification failed."), s1) ∧
    s1.refreshCount = s.refreshCount := by
  have hbe : (tok.raw == "") = false := beq_eq_false_iff_ne.mpr hraw
  have hsk : get_signing_key tok jwks = .ok k := by
    simp [get_signing_key, hh, halg, hfind]
  have hlower : containsSub "signature" (pyLower "Signature verification failed.") = true := by
    decide
  have hvt : verify_token w now cfg tok ve vi va s =
      (.error (.invalidSignature "Invalid signature: Signature verification failed."), s1) := by
    simp [verify_token, hbe, hgj, hsk, jwtDecode, hsig, hlower]
  refine ⟨hvt, ?_, ?_⟩
  · have hnc : containsSub "No matching key found"
        "Invalid signature: Signature verification failed." = false := by decide
    simp [verify_token_with_retry, hvt, AuthError.isVerificationError, AuthError.msg, hnc]
  · have hrc := get_jwks_refreshCount w now cfg s
    rw [hgj] at hrc
    exact hrc

/-- C3 witness: `tokBadSig` against the fixture endpoint raises
`InvalidSignatureError` through the retrying variant with no refresh. -/
theorem C3_witness :
    verify_token_with_retry worldA 0 cfgEx tokBadSig true true none initState =
      (.error (.invalidSignature "Invalid signature: Signature verification failed."),
       { cache := { jwks_cache := some jwksA, jwks_cache_expires := some 3600 }
         fetchCount := 1, refreshCount := 0 }) := by
  exact (C3_invalid_signature_never_retried worldA 0 cfgEx tokBadSig
    { alg := some "RS256", kid := some "A" } jwksA initState
    { cache := { jwks_cache := some jwksA, jwks_cache_expires := some 3600 }
      fetchCount := 1, refreshCount := 0 }
    keyA true true none (by decide) rfl rfl rfl rfl (by decide)).2.1

/-- C2 counterexample: the claim's observability clause "fetch call count
== 2 for the whole operation (initial + one retry)" fails when the
operation begins with a warm, valid cache: the initial key lookup uses the
cache without fetching, so the whole retrying operation for an unknown kid
performs exactly one fetch (the forced refresh), not two. -/
theorem C2_counterexample :
    warmState.cache.jwks_cache = some jwksA ∧
    (verify_token_with_retry worldA 0 cfgEx tokKidZ true true none warmState).1 =
      .error (.verificationError (noMatchingKeyMsg (some "Z"))) ∧
    (verify_token_with_retry worldA 0 cfgEx tokKidZ true true none warmState).2.fetchCount = 1 ∧
    (verify_token_with_retry worldA 0 cfgEx tokKidZ true true none warmState).2.refreshCount = 1 :=
  ⟨rfl, rfl, rfl, rfl⟩

/-- C2 amended: for a token whose kid is in no fetched key set, the
retrying verify operation starting from the fresh (empty-cache) state, with
both fetches answering well-formed key sets (a `keys` array present) and a
positive TTL, forces exactly one refresh, retries once, and fails with the
fatal key-not-found `JWKSVerificationError`; the whole operation performs
exactly two fetches (initial + the one refresh) and no further retry. -/
theorem C2_amended_one_refresh_then_fatal (w : World) (now : Int)
    (cfg : KeycloakConfig) (tok : Token) (h : Header) (ks1 ks2 : List JwksKey)
    (o1 o2 : Nat) (ve vi : Bool) (va : Option Bool)
    (hraw : tok.raw ≠ "")
    (hh : tok.header = some h)
    (halg : h.alg.getD "RS256" = "RS256")
    (hf0 : w.fetchAt 0 = .success { keys := some ks1, otherEntries := o1 })
    (hf1 : w.fetchAt 1 = .success { keys := some ks2, otherEntries := o2 })
    (hm1 : ks1.find? (fun k => k.kid == h.kid) = none)
    (hm2 : ks2.find? (fun k => k.kid == h.kid) = none)
    (httl : 0 < cfg.jwks_cache_ttl) :
    verify_token_with_retry w now cfg tok ve vi va initState =
      (.error (.verificationError (noMatchingKeyMsg h.kid)),
       { cache := { jwks_cache := some { keys := some ks2, otherEntries := o2 }
                    jwks_cache_expires := some (now + cfg.jwks_cache_ttl) }
         fetchCount := 2, refreshCount := 1 }) := by
  have hbe : (tok.raw == "") = false := beq_eq_false_iff_ne.mpr hraw
  have hnow : now < now + cfg.jwks_cache_ttl := by omega
  have hsk1 : get_signing_key tok { keys := some ks1, otherEntries := o1 } =
      .error (.verificationError (noMatchingKeyMsg h.kid)) := by
    simp [get_signing_key, hh, halg, Jwks.getKeys, hm1]
  have hsk2 : get_signing_key tok { keys := some ks2, otherEntries := o2 } =
      .error (.verificationError (noMatchingKeyMsg h.kid)) := by
    simp [get_signing_key, hh, halg, Jwks.getKeys, hm2]
  have hvt1 : verify_token w now cfg tok ve vi va initState =
      (.error (.verificationError (noMatchingKeyMsg h.kid)),
       { cache := { jwks_cache := some { keys := some ks1, otherEntries := o1 }
                    jwks_cache_expires := some (now + cfg.jwks_cache_ttl) }
         fetchCount := 1, refreshCount := 0 }) := by
    simp [verify_token, hbe, get_jwks, initState, fetch_jwks, hf0, hsk1]
  have hvt2 : verify_token w now cfg tok ve vi va
      { cache := { jwks_cache := some { keys := some ks2, otherEntries := o2 }
                   jwks_cache_expires := some (now + cfg.jwks_cache_ttl) }
        fetchCount := 2, refreshCount := 1 } =
      (.error (.verificationError (noMatchingKeyMsg h.kid)),
       { cache := { jwks_cache := some { keys := some ks2, otherEntries := o2 }
                    jwks_cache_expires := some (now + cfg.jwks_cache_ttl) }
         fetchCount := 2, refreshCount := 1 }) := by
    simp [verify_token, hbe, get_jwks, Jwks.truthy, hnow, hsk2]
  have hcontains := containsSub_noMatchingKeyMsg h.kid
  simp [verify_token_with_retry, hvt1, AuthError.isVerificationError, AuthError.msg,
    hcontains, refresh_jwks, fetch_jwks, hf1, hvt2]

/-- C2 witness: `tokKidZ` from the fresh state against the fixture endpoint
fails with key-not-found after exactly two fetches and one refresh. -/
theorem C2_witness :
    verify_token_with_retry worldA 0 cfgEx tokKidZ true true none initState =
      (.error (.verificationError (noMatchingKeyMsg (some "Z"))),
       { cache := { jwks_cache := some jwksA, jwks_cache_expires := some 3600 }
         fetchCount := 2, refreshCount := 1 }) := by
  exact C2_amended_one_refresh_then_fatal worldA 0 cfgEx tokKidZ
    { alg := some "RS256", kid := some "Z" } [keyA] [keyA] 0 0 true true none
    (by decide) rfl rfl rfl rfl (by decide) (by decide) (by decide)

end AuthClient
